import Mathlib

/-!
Verification of the comparison harness in `scripts/eval_model.py` and the
conversion helper in `scripts/test.py`.

Floating-point values are modelled as rationals (`ℚ`); image files are
modelled by their path strings; the two inference backends are modelled as
functions from an image path to its output vector (each path determines the
decoded image, and the real backends are deterministic).  The run produces a
trace (which images were opened, which backend invocations happened, which
shape-mismatch diagnostics were printed, which rows entered the difference
matrix) together with a terminal result.
-/

namespace MayoEval

/-- A shape-mismatch diagnostic: the sample path and the two output lengths,
mirroring `print(f"Shape mismatch for {img_path}: pt=..., coreml=...")`. -/
abbrev Diag := String × Nat × Nat

/-- Suffix test on the character sequences of two strings (the executable
core of `endsWith`). -/
def strEndsWith (s post : String) : Bool :=
  List.isPrefixOf post.data.reverse s.data.reverse

/-- Image discovery predicate: `glob` patterns `*.png`, `*.jpg`, `*.jpeg`
from `run_comparison` — a case-sensitive match on the literal extension. -/
def matchesImageExt (name : String) : Bool :=
  strEndsWith name ".png" || strEndsWith name ".jpg" || strEndsWith name ".jpeg"

/-- Lexicographic comparison of character sequences by code point: the
order `sorted()` uses on path strings. -/
def charListLe : List Char → List Char → Bool
  | [], _ => true
  | _ :: _, [] => false
  | a :: as, b :: bs =>
      if a < b then true
      else if b < a then false
      else charListLe as bs

/-- Lexicographic `≤` on strings, executable form. -/
def strLe (a b : String) : Bool :=
  charListLe a.data b.data

/-- `image_paths = sorted(glob png ++ glob jpg ++ glob jpeg)`:
all matching files, sorted lexicographically. -/
def discoverImages (files : List String) : List String :=
  List.insertionSort (fun a b => strLe a b = true) (files.filter matchesImageExt)

/-- `if max_samples is not None and max_samples > 0: image_paths = image_paths[:max_samples]`. -/
def truncateSamples (maxSamples : Option Int) (paths : List String) : List String :=
  match maxSamples with
  | none => paths
  | some n => if 0 < n then paths.take n.toNat else paths

/-- `main()` turns a `--max-samples` value of `0` into `None` before calling
`run_comparison`. -/
def mainMaxSamples (n : Int) : Option Int :=
  if n = 0 then none else some n

/-- `diff = np.abs(pt_out - cm_out)`: elementwise absolute difference of two
vectors of equal shape. -/
def absDiffRow (a b : List ℚ) : List ℚ :=
  List.zipWith (fun x y => |x - y|) a b

/-- What `torch.load` returned, abstracted to the structure the loading code
inspects: a dictionary with its keys, or something that is not a dictionary. -/
inductive TorchObject where
  | dict (keys : List String)
  | nonDict
deriving DecidableEq

/-- Which branch of the checkpoint-loading code fed `load_state_dict`. -/
inductive LoadedFrom where
  | direct
  | nested
deriving DecidableEq

/-- `load_pytorch_model` from `eval_model.py` (same branching as `load_model`
in `test.py`): a plain dict is loaded directly, a dict with a `"state_dict"`
key is unwrapped, anything that is not a dict raises `RuntimeError`. -/
def load_pytorch_model (state : TorchObject) : Except String LoadedFrom :=
  match state with
  | .dict keys =>
      if ¬ "state_dict" ∈ keys then Except.ok LoadedFrom.direct
      else Except.ok LoadedFrom.nested
  | .nonDict =>
      Except.error "Unexpected checkpoint format in load_pytorch_model()"

/-- Trace of the per-sample loop: images opened, backend invocations,
mismatch diagnostics, and the collected difference rows (`diffs`). -/
structure LoopTrace where
  opened : List String
  inferredA : List String
  inferredB : List String
  diags : List Diag
  diffs : List (List ℚ)
deriving DecidableEq

/-- The `for img_path in tqdm(image_paths)` loop body: open the image, run
both backends, and either record a shape-mismatch diagnostic (`continue`) or
append the absolute-difference row. -/
def runLoop (A B : String → List ℚ) : List String → LoopTrace
  | [] => ⟨[], [], [], [], []⟩
  | p :: rest =>
      let ptOut := A p
      let cmOut := B p
      let t := runLoop A B rest
      if ptOut.length ≠ cmOut.length then
        ⟨p :: t.opened, p :: t.inferredA, p :: t.inferredB,
         (p, ptOut.length, cmOut.length) :: t.diags, t.diffs⟩
      else
        ⟨p :: t.opened, p :: t.inferredA, p :: t.inferredB,
         t.diags, absDiffRow ptOut cmOut :: t.diffs⟩

/-- Maximum of a list of rationals, as `np.max` over a nonempty axis. -/
def listMax : List ℚ → ℚ
  | [] => 0
  | x :: xs => xs.foldl max x

/-- Sum of all entries of the matrix. -/
def matrixSum (rows : List (List ℚ)) : ℚ :=
  (rows.map List.sum).sum

/-- Number of entries of the matrix. -/
def matrixCount (rows : List (List ℚ)) : ℕ :=
  (rows.map List.length).sum

/-- `diffs.mean()`: total sum over total element count. -/
def matrixMean (rows : List (List ℚ)) : ℚ :=
  matrixSum rows / (matrixCount rows : ℚ)

/-- `diffs.max()`: maximum entry of the matrix. -/
def matrixMax (rows : List (List ℚ)) : ℚ :=
  listMax (rows.map listMax)

/-- Column `j` of the matrix (all rows have the same length when this is
used, so the default is never hit there). -/
def columnVals (rows : List (List ℚ)) (j : ℕ) : List ℚ :=
  rows.map (fun r => r.getD j 0)

/-- `diffs.mean(axis=0)`: per-class mean over the rows. -/
def perClassMean (rows : List (List ℚ)) : List ℚ :=
  (List.range (rows.headD []).length).map
    (fun j => (columnVals rows j).sum / (rows.length : ℚ))

/-- `diffs.max(axis=0)`: per-class max over the rows. -/
def perClassMax (rows : List (List ℚ)) : List ℚ :=
  (List.range (rows.headD []).length).map
    (fun j => listMax (columnVals rows j))

/-- The printed comparison summary of `run_comparison`. -/
structure Summary where
  numSamples : ℕ
  numClasses : ℕ
  overallMean : ℚ
  overallMax : ℚ
  perClassMeanDiff : List ℚ
  perClassMaxDiff : List ℚ
deriving DecidableEq

/-- How a run of `run_comparison` terminates. -/
inductive RunResult where
  | fatalError (msg : String)
  | noImages
  | noValidComparisons
  | report (s : Summary)
deriving DecidableEq

/-- Observable outcome of a run: the trace of the loop plus the terminal
result.  `rows` is the difference matrix actually aggregated. -/
structure RunOutput where
  opened : List String
  inferredA : List String
  inferredB : List String
  diags : List Diag
  rows : List (List ℚ)
  result : RunResult
deriving DecidableEq

/-- `run_comparison` from `eval_model.py`: load the checkpoint (fatal on bad
format), discover and sort images, bail out if none, truncate to the cap,
run the loop, bail out if no rows were collected, else build the summary. -/
def runComparison (ckpt : TorchObject) (A B : String → List ℚ)
    (files : List String) (maxSamples : Option Int) (numClasses : ℕ) :
    RunOutput :=
  match load_pytorch_model ckpt with
  | .error msg => ⟨[], [], [], [], [], .fatalError msg⟩
  | .ok _ =>
      let discovered := discoverImages files
      if discovered.length = 0 then
        ⟨[], [], [], [], [], .noImages⟩
      else
        let imagePaths := truncateSamples maxSamples discovered
        let t := runLoop A B imagePaths
        if t.diffs.isEmpty then
          ⟨t.opened, t.inferredA, t.inferredB, t.diags, t.diffs,
           .noValidComparisons⟩
        else
          ⟨t.opened, t.inferredA, t.inferredB, t.diags, t.diffs,
           .report ⟨imagePaths.length, numClasses,
                     matrixMean t.diffs, matrixMax t.diffs,
                     perClassMean t.diffs, perClassMax t.diffs⟩⟩

/-- PyTorch-side preprocessing of one pixel channel value `x ∈ [0,255]`:
`ToTensor` divides by 255, then `Normalize(mean=0.5, std=0.5)`. -/
def ptNormalize (x : ℚ) : ℚ :=
  (x / 255 - 0.5) / 0.5

/-- `scale = 1.0 / 127.5` from `convert_to_coreml`. -/
def coremlScale : ℚ := 1 / 127.5

/-- `bias = [-1.0, -1.0, -1.0]` from `convert_to_coreml` (per channel). -/
def coremlBias : ℚ := -1

/-- CoreML `ImageType` preprocessing of one pixel channel value:
`x * scale + bias`. -/
def coremlNormalize (x : ℚ) : ℚ :=
  x * coremlScale + coremlBias

/-! ### The executable string comparison agrees with the lexicographic order -/

theorem charListLe_iff (l₁ l₂ : List Char) :
    charListLe l₁ l₂ = true ↔ ¬ List.Lex (· < ·) l₂ l₁ := by
  induction l₁ generalizing l₂ with
  | nil =>
      cases l₂ <;> simp [charListLe, List.Lex.not_nil_right]
  | cons a as ih =>
      cases l₂ with
      | nil =>
          simp [charListLe]
          exact List.Lex.nil
      | cons b bs =>
          by_cases hab : a < b
          · have hnot : ¬ List.Lex (· < ·) (b :: bs) (a :: as) := by
              intro h
              cases h with
              | cons h => exact lt_irrefl a hab
              | rel h => exact lt_asymm hab h
            simp [charListLe, hab, hnot]
          · by_cases hba : b < a
            · have hlex : List.Lex (· < ·) (b :: bs) (a :: as) := List.Lex.rel hba
              simp [charListLe, hab, hba, hlex]
            · have hei : a = b := le_antisymm (le_of_not_lt hba) (le_of_not_lt hab)
              subst hei
              simp [charListLe, hab, List.Lex.cons_iff, ih bs]

theorem strLe_iff_le (a b : String) : strLe a b = true ↔ a ≤ b := by
  rw [String.le_iff_toList_le]
  have h : (b.toList < a.toList) = List.Lex (· < ·) b.toList a.toList := rfl
  rw [← not_lt, h]
  exact charListLe_iff a.data b.data

theorem discoverImages_sorted (files : List String) :
    List.Sorted (· ≤ ·) (discoverImages files) := by
  haveI ht : IsTotal String (fun a b => strLe a b = true) :=
    ⟨fun a b => by
      rw [strLe_iff_le, strLe_iff_le]
      exact le_total a b⟩
  haveI htr : IsTrans String (fun a b => strLe a b = true) :=
    ⟨fun a b c hab hbc => by
      rw [strLe_iff_le] at hab hbc ⊢
      exact le_trans hab hbc⟩
  have hs := List.sorted_insertionSort (fun a b => strLe a b = true)
    (files.filter matchesImageExt)
  exact hs.imp (fun {a b} h => (strLe_iff_le a b).mp h)

theorem discoverImages_perm (files : List String) :
    (discoverImages files).Perm (files.filter matchesImageExt) :=
  List.perm_insertionSort (fun a b => strLe a b = true) (files.filter matchesImageExt)

/-! ### Helper lemmas about the loop and the run -/

theorem runLoop_opened (A B : String → List ℚ) (paths : List String) :
    (runLoop A B paths).opened = paths := by
  induction paths with
  | nil => rfl
  | cons p rest ih =>
      by_cases h : (A p).length ≠ (B p).length <;> simp [runLoop, h, ih]

theorem runLoop_inferredA (A B : String → List ℚ) (paths : List String) :
    (runLoop A B paths).inferredA = paths := by
  induction paths with
  | nil => rfl
  | cons p rest ih =>
      by_cases h : (A p).length ≠ (B p).length <;> simp [runLoop, h, ih]

theorem runLoop_inferredB (A B : String → List ℚ) (paths : List String) :
    (runLoop A B paths).inferredB = paths := by
  induction paths with
  | nil => rfl
  | cons p rest ih =>
      by_cases h : (A p).length ≠ (B p).length <;> simp [runLoop, h, ih]

theorem runLoop_diags (A B : String → List ℚ) (paths : List String) :
    (runLoop A B paths).diags =
      (paths.filter (fun q => ¬ (A q).length = (B q).length)).map
        (fun q => (q, (A q).length, (B q).length)) := by
  induction paths with
  | nil => rfl
  | cons p rest ih =>
      by_cases h : (A p).length = (B p).length <;>
        simp [runLoop, List.filter_cons, h, ih]

theorem runLoop_diffs (A B : String → List ℚ) (paths : List String) :
    (runLoop A B paths).diffs =
      (paths.filter (fun q => (A q).length = (B q).length)).map
        (fun q => absDiffRow (A q) (B q)) := by
  induction paths with
  | nil => rfl
  | cons p rest ih =>
      by_cases h : (A p).length = (B p).length <;>
        simp [runLoop, List.filter_cons, h, ih]

theorem truncateSamples_nil (maxSamples : Option Int) :
    truncateSamples maxSamples [] = [] := by
  cases maxSamples with
  | none => rfl
  | some n => by_cases h : 0 < n <;> simp [truncateSamples, h]

theorem load_pytorch_model_dict (keys : List String) :
    load_pytorch_model (.dict keys) =
      Except.ok (if "state_dict" ∈ keys then LoadedFrom.nested
                 else LoadedFrom.direct) := by
  by_cases h : "state_dict" ∈ keys <;> simp [load_pytorch_model, h]

theorem runComparison_dict_eq (keys : List String) (A B : String → List ℚ)
    (files : List String) (maxS : Option Int) (C : ℕ)
    (hne : discoverImages files ≠ []) :
    runComparison (.dict keys) A B files maxS C =
      (let imagePaths := truncateSamples maxS (discoverImages files)
       let t := runLoop A B imagePaths
       if t.diffs.isEmpty then
         ⟨t.opened, t.inferredA, t.inferredB, t.diags, t.diffs,
          .noValidComparisons⟩
       else
         ⟨t.opened, t.inferredA, t.inferredB, t.diags, t.diffs,
          .report ⟨imagePaths.length, C,
                    matrixMean t.diffs, matrixMax t.diffs,
                    perClassMean t.diffs, perClassMax t.diffs⟩⟩) := by
  have hlen : ¬ (discoverImages files).length = 0 := by
    simpa [List.length_eq_zero] using hne
  simp [runComparison, load_pytorch_model_dict, hlen]

theorem runComparison_dict_opened (keys : List String) (A B : String → List ℚ)
    (files : List String) (maxS : Option Int) (C : ℕ)
    (hne : discoverImages files ≠ []) :
    (runComparison (.dict keys) A B files maxS C).opened =
      truncateSamples maxS (discoverImages files) := by
  rw [runComparison_dict_eq keys A B files maxS C hne]
  by_cases h :
      (runLoop A B (truncateSamples maxS (discoverImages files))).diffs.isEmpty <;>
    simp [h, runLoop_opened]

theorem runComparison_dict_diags (keys : List String) (A B : String → List ℚ)
    (files : List String) (maxS : Option Int) (C : ℕ)
    (hne : discoverImages files ≠ []) :
    (runComparison (.dict keys) A B files maxS C).diags =
      (runLoop A B (truncateSamples maxS (discoverImages files))).diags := by
  rw [runComparison_dict_eq keys A B files maxS C hne]
  by_cases h :
      (runLoop A B (truncateSamples maxS (discoverImages files))).diffs.isEmpty <;>
    simp [h]

theorem runComparison_dict_rows (keys : List String) (A B : String → List ℚ)
    (files : List String) (maxS : Option Int) (C : ℕ) :
    (runComparison (.dict keys) A B files maxS C).rows =
      (runLoop A B (truncateSamples maxS (discoverImages files))).diffs := by
  by_cases hd : (discoverImages files).length = 0
  · have hnil : discoverImages files = [] := List.length_eq_zero.mp hd
    rw [hnil, truncateSamples_nil]
    simp [runComparison, load_pytorch_model_dict, hnil, runLoop]
  · have hne : discoverImages files ≠ [] := by
      simpa [List.length_eq_zero] using hd
    rw [runComparison_dict_eq keys A B files maxS C hne]
    by_cases h :
        (runLoop A B (truncateSamples maxS (discoverImages files))).diffs.isEmpty <;>
      simp [h]

theorem runComparison_dict_of_discover_nil (keys : List String)
    (A B : String → List ℚ) (files : List String) (maxS : Option Int) (C : ℕ)
    (h : discoverImages files = []) :
    runComparison (.dict keys) A B files maxS C =
      ⟨[], [], [], [], [], .noImages⟩ := by
  simp [runComparison, load_pytorch_model_dict, h]

theorem absDiffRow_nonneg (a b : List ℚ) : ∀ x ∈ absDiffRow a b, 0 ≤ x := by
  induction a generalizing b with
  | nil => intro x hx; simp [absDiffRow] at hx
  | cons y ys ih =>
      cases b with
      | nil => intro x hx; simp [absDiffRow] at hx
      | cons z zs =>
          intro x hx
          rw [absDiffRow, List.zipWith_cons_cons] at hx
          rcases List.mem_cons.mp hx with h | h
          · rw [h]; exact abs_nonneg _
          · exact ih zs x h

theorem absDiffRow_self (v : List ℚ) : absDiffRow v v = v.map (fun _ => 0) := by
  induction v with
  | nil => rfl
  | cons a as ih =>
      rw [absDiffRow, List.zipWith_cons_cons, List.map_cons]
      rw [absDiffRow] at ih
      rw [ih, sub_self, abs_zero]

theorem foldl_max_eq_zero (xs : List ℚ) :
    ∀ acc : ℚ, acc = 0 → (∀ x ∈ xs, x = 0) → xs.foldl max acc = 0 := by
  induction xs with
  | nil => intro acc ha _; simpa using ha
  | cons y ys ih =>
      intro acc ha h
      rw [List.foldl_cons]
      refine ih (max acc y) ?_ (fun x hx => h x (List.mem_cons_of_mem y hx))
      rw [ha, h y (List.mem_cons_self y ys)]
      exact max_self 0

theorem listMax_of_forall_eq_zero (l : List ℚ) (h : ∀ x ∈ l, x = 0) :
    listMax l = 0 := by
  cases l with
  | nil => rfl
  | cons x xs =>
      rw [listMax]
      exact foldl_max_eq_zero xs x (h x (List.mem_cons_self x xs))
        (fun y hy => h y (List.mem_cons_of_mem x hy))

theorem report_summary_eq (keys : List String) (A B : String → List ℚ)
    (files : List String) (maxS : Option Int) (C : ℕ) (s : Summary)
    (hrep : (runComparison (.dict keys) A B files maxS C).result =
      RunResult.report s) :
    s = ⟨(truncateSamples maxS (discoverImages files)).length, C,
         matrixMean (runLoop A B (truncateSamples maxS (discoverImages files))).diffs,
         matrixMax (runLoop A B (truncateSamples maxS (discoverImages files))).diffs,
         perClassMean (runLoop A B (truncateSamples maxS (discoverImages files))).diffs,
         perClassMax (runLoop A B (truncateSamples maxS (discoverImages files))).diffs⟩ := by
  by_cases hne : discoverImages files = []
  · rw [runComparison_dict_of_discover_nil keys A B files maxS C hne] at hrep
    cases hrep
  · rw [runComparison_dict_eq keys A B files maxS C hne] at hrep
    by_cases he :
        (runLoop A B (truncateSamples maxS (discoverImages files))).diffs.isEmpty <;>
      simp [he] at hrep
    exact hrep.symm

/-! ### Claim theorems -/

/-- C4: if the image directory contains zero files matching the extensions
`.png`, `.jpg`, `.jpeg` (case-sensitive), the harness reports that no images
were found, performs zero backend inference invocations, and terminates
cleanly as a no-op rather than as an error. -/
theorem c4_no_images_noop (keys : List String) (A B : String → List ℚ)
    (files : List String) (maxS : Option Int) (C : ℕ)
    (hnone : files.filter matchesImageExt = []) :
    runComparison (.dict keys) A B files maxS C =
      ⟨[], [], [], [], [], .noImages⟩ := by
  apply runComparison_dict_of_discover_nil
  rw [discoverImages, hnone, List.insertionSort]

/-- Witness for C4: a directory holding only `readme.txt`. -/
theorem c4_witness :
    (["readme.txt"].filter matchesImageExt = []) ∧
    runComparison (TorchObject.dict []) (fun _ => [(0 : ℚ)]) (fun _ => [(0 : ℚ)])
        ["readme.txt"] (some 100) 14 =
      ⟨[], [], [], [], [], .noImages⟩ :=
  ⟨by decide,
   c4_no_images_noop [] (fun _ => [(0 : ℚ)]) (fun _ => [(0 : ℚ)])
     ["readme.txt"] (some 100) 14 (by decide)⟩

/-- C7: for any two output vectors of equal length `C`, the elementwise
absolute-difference row has length exactly `C` and every entry of it is
non-negative. -/
theorem c7_absdiff_row_length_nonneg (a b : List ℚ) (C : ℕ)
    (ha : a.length = C) (hb : b.length = C) :
    (absDiffRow a b).length = C ∧ ∀ x ∈ absDiffRow a b, 0 ≤ x := by
  refine ⟨?_, absDiffRow_nonneg a b⟩
  rw [absDiffRow, List.length_zipWith, ha, hb]
  exact min_self C

/-- Witness for C7 at two concrete vectors of length 2. -/
theorem c7_witness :
    (([(1 : ℚ), 2] : List ℚ).length = 2 ∧ ([(3 : ℚ), 1] : List ℚ).length = 2) ∧
    ((absDiffRow [(1 : ℚ), 2] [(3 : ℚ), 1]).length = 2 ∧
      ∀ x ∈ absDiffRow [(1 : ℚ), 2] [(3 : ℚ), 1], 0 ≤ x) :=
  ⟨⟨rfl, rfl⟩, c7_absdiff_row_length_nonneg [(1 : ℚ), 2] [(3 : ℚ), 1] 2 rfl rfl⟩

/-- C8: the mean/std normalization of the PyTorch backend
(`x ↦ (x/255 - 0.5)/0.5` per channel) and the scale/bias pair of the CoreML
conversion (`x ↦ x * (1/127.5) + (-1)` per channel) are the same
mathematical transform: they agree at every pixel value. -/
theorem c8_normalization_equivalence (x : ℚ) :
    ptNormalize x = coremlNormalize x := by
  unfold ptNormalize coremlNormalize coremlScale coremlBias
  norm_num
  ring

/-- C9: loading a checkpoint whose content has an unexpected format is
fatal: the descriptive error is raised exactly when the loaded object is not
a dictionary, and a run with such a checkpoint aborts immediately with the
error, performing no comparison work (no image opened, no backend invoked,
no row collected). -/
theorem c9_checkpoint_format_fatal (state : TorchObject)
    (A B : String → List ℚ) (files : List String) (maxS : Option Int) (C : ℕ) :
    ((∃ msg, load_pytorch_model state = Except.error msg) ↔
      state = TorchObject.nonDict)
    ∧ runComparison TorchObject.nonDict A B files maxS C =
        ⟨[], [], [], [], [],
         .fatalError "Unexpected checkpoint format in load_pytorch_model()"⟩ := by
  refine ⟨⟨?_, ?_⟩, rfl⟩
  · rintro ⟨msg, hmsg⟩
    cases state with
    | dict keys => rw [load_pytorch_model_dict] at hmsg; cases hmsg
    | nonDict => rfl
  · rintro rfl
    exact ⟨_, rfl⟩

/-- C1: every run discovers exactly the files matching the extensions
`.png`, `.jpg`, `.jpeg` (as a permutation of the filtered directory), the
discovered paths are sorted lexicographically, and the images opened by the
run are exactly the first `N` paths in that sorted order when a cap `N > 0`
is given (a cap of `0`, which `main` turns into `None`, means all are
opened); images past the cap are never opened. -/
theorem c1_discovery_sort_truncation (keys : List String)
    (A B : String → List ℚ) (files : List String) (n : Int) (C : ℕ)
    (hne : discoverImages files ≠ []) :
    (runComparison (.dict keys) A B files (mainMaxSamples n) C).opened =
      (if 0 < n then (discoverImages files).take n.toNat
       else discoverImages files)
    ∧ List.Sorted (· ≤ ·) (discoverImages files)
    ∧ (discoverImages files).Perm (files.filter matchesImageExt) := by
  refine ⟨?_, discoverImages_sorted files, discoverImages_perm files⟩
  rw [runComparison_dict_opened keys A B files (mainMaxSamples n) C hne]
  by_cases h0 : n = 0
  · subst h0; simp [mainMaxSamples, truncateSamples]
  · by_cases hp : 0 < n <;> simp [mainMaxSamples, truncateSamples, h0, hp]

/-- Witness for C1: three files, two of which match, with a cap of 1. -/
theorem c1_witness :
    (discoverImages ["b.png", "a.jpg", "c.txt"] ≠ []) ∧
    ((runComparison (TorchObject.dict []) (fun _ => [(0 : ℚ)])
        (fun _ => [(0 : ℚ)]) ["b.png", "a.jpg", "c.txt"]
        (mainMaxSamples 1) 14).opened =
      (if (0 : Int) < 1 then
        (discoverImages ["b.png", "a.jpg", "c.txt"]).take (Int.toNat 1)
       else discoverImages ["b.png", "a.jpg", "c.txt"])
    ∧ List.Sorted (· ≤ ·) (discoverImages ["b.png", "a.jpg", "c.txt"])
    ∧ (discoverImages ["b.png", "a.jpg", "c.txt"]).Perm
        (["b.png", "a.jpg", "c.txt"].filter matchesImageExt)) :=
  ⟨by decide,
   c1_discovery_sort_truncation [] (fun _ => [(0 : ℚ)]) (fun _ => [(0 : ℚ)])
     ["b.png", "a.jpg", "c.txt"] 1 14 (by decide)⟩

/-- C2: a sample whose two backend output vectors differ in length is
skipped: a diagnostic naming the sample path and both lengths is emitted,
the difference matrix holds rows only for the samples with matching
lengths, and the run still opens every selected image (it continues past
the skipped sample). -/
theorem c2_shape_mismatch_skipped (keys : List String)
    (A B : String → List ℚ) (files : List String) (maxS : Option Int)
    (C : ℕ) (p : String)
    (hne : discoverImages files ≠ [])
    (hp : p ∈ truncateSamples maxS (discoverImages files))
    (hmm : (A p).length ≠ (B p).length) :
    (p, (A p).length, (B p).length) ∈
        (runComparison (.dict keys) A B files maxS C).diags
    ∧ (runComparison (.dict keys) A B files maxS C).rows =
        ((truncateSamples maxS (discoverImages files)).filter
            (fun q => (A q).length = (B q).length)).map
          (fun q => absDiffRow (A q) (B q))
    ∧ (runComparison (.dict keys) A B files maxS C).opened =
        truncateSamples maxS (discoverImages files) := by
  refine ⟨?_, ?_, runComparison_dict_opened keys A B files maxS C hne⟩
  · rw [runComparison_dict_diags keys A B files maxS C hne, runLoop_diags]
    exact List.mem_map_of_mem _
      (List.mem_filter.mpr ⟨hp, by simpa using hmm⟩)
  · rw [runComparison_dict_rows keys A B files maxS C, runLoop_diffs]

/-- Witness for C2: backend B returns an empty vector on `b.png` only. -/
theorem c2_witness :
    (discoverImages ["a.png", "b.png"] ≠ []) ∧
    ("b.png" ∈ truncateSamples none (discoverImages ["a.png", "b.png"])) ∧
    (((fun _ => [(0 : ℚ)]) "b.png").length ≠
      ((fun q => if q = "b.png" then ([] : List ℚ) else [0]) "b.png").length) ∧
    (("b.png", ((fun _ => [(0 : ℚ)]) "b.png").length,
        ((fun q => if q = "b.png" then ([] : List ℚ) else [0]) "b.png").length) ∈
      (runComparison (TorchObject.dict []) (fun _ => [(0 : ℚ)])
        (fun q => if q = "b.png" then ([] : List ℚ) else [0])
        ["a.png", "b.png"] none 14).diags
    ∧ (runComparison (TorchObject.dict []) (fun _ => [(0 : ℚ)])
        (fun q => if q = "b.png" then ([] : List ℚ) else [0])
        ["a.png", "b.png"] none 14).rows =
        ((truncateSamples none (discoverImages ["a.png", "b.png"])).filter
            (fun q => ((fun _ => [(0 : ℚ)]) q).length =
              ((fun q => if q = "b.png" then ([] : List ℚ) else [0]) q).length)).map
          (fun q => absDiffRow ((fun _ => [(0 : ℚ)]) q)
            ((fun q => if q = "b.png" then ([] : List ℚ) else [0]) q))
    ∧ (runComparison (TorchObject.dict []) (fun _ => [(0 : ℚ)])
        (fun q => if q = "b.png" then ([] : List ℚ) else [0])
        ["a.png", "b.png"] none 14).opened =
        truncateSamples none (discoverImages ["a.png", "b.png"])) :=
  ⟨by decide, by decide, by decide,
   c2_shape_mismatch_skipped [] (fun _ => [(0 : ℚ)])
     (fun q => if q = "b.png" then ([] : List ℚ) else [0])
     ["a.png", "b.png"] none 14 "b.png" (by decide) (by decide) (by decide)⟩

/-- C3: if every selected sample is skipped for a length mismatch, the run
terminates with the no-valid-comparisons report, the difference matrix is
empty, and no summary statistics are ever produced. -/
theorem c3_no_valid_comparisons (keys : List String)
    (A B : String → List ℚ) (files : List String) (maxS : Option Int) (C : ℕ)
    (hne : discoverImages files ≠ [])
    (hall : ∀ p ∈ truncateSamples maxS (discoverImages files),
      (A p).length ≠ (B p).length) :
    (runComparison (.dict keys) A B files maxS C).result =
        RunResult.noValidComparisons
    ∧ (runComparison (.dict keys) A B files maxS C).rows = []
    ∧ ∀ s, (runComparison (.dict keys) A B files maxS C).result ≠
        RunResult.report s := by
  have hfil : (truncateSamples maxS (discoverImages files)).filter
      (fun q => (A q).length = (B q).length) = [] := by
    rw [List.filter_eq_nil_iff]
    intro p hp
    simpa using hall p hp
  have hdiffs :
      (runLoop A B (truncateSamples maxS (discoverImages files))).diffs = [] := by
    rw [runLoop_diffs, hfil, List.map_nil]
  have hres : (runComparison (.dict keys) A B files maxS C).result =
      RunResult.noValidComparisons := by
    rw [runComparison_dict_eq keys A B files maxS C hne]
    simp [hdiffs]
  refine ⟨hres, ?_, ?_⟩
  · rw [runComparison_dict_rows keys A B files maxS C, hdiffs]
  · intro s hs
    rw [hres] at hs
    cases hs

/-- Witness for C3: one image, backend B always returns the empty vector. -/
theorem c3_witness :
    (discoverImages ["a.png"] ≠ []) ∧
    (∀ p ∈ truncateSamples none (discoverImages ["a.png"]),
      (([(0 : ℚ)] : List ℚ)).length ≠ (([] : List ℚ)).length) ∧
    ((runComparison (TorchObject.dict []) (fun _ => [(0 : ℚ)])
        (fun _ => ([] : List ℚ)) ["a.png"] none 14).result =
        RunResult.noValidComparisons
    ∧ (runComparison (TorchObject.dict []) (fun _ => [(0 : ℚ)])
        (fun _ => ([] : List ℚ)) ["a.png"] none 14).rows = []
    ∧ ∀ s, (runComparison (TorchObject.dict []) (fun _ => [(0 : ℚ)])
        (fun _ => ([] : List ℚ)) ["a.png"] none 14).result ≠
        RunResult.report s) :=
  ⟨by decide, by decide,
   c3_no_valid_comparisons [] (fun _ => [(0 : ℚ)]) (fun _ => ([] : List ℚ))
     ["a.png"] none 14 (by decide) (by decide)⟩

/-- C5: when backend A always produces vectors of the expected
dimensionality `C` (the native model ends in a `C`-output linear layer),
every row of the difference matrix has length exactly `C`, and samples with
mismatched output lengths contribute no row at all. -/
theorem c5_row_length_invariant (keys : List String)
    (A B : String → List ℚ) (files : List String) (maxS : Option Int) (C : ℕ)
    (hA : ∀ p, (A p).length = C) :
    (∀ row ∈ (runComparison (.dict keys) A B files maxS C).rows,
      row.length = C)
    ∧ (runComparison (.dict keys) A B files maxS C).rows =
        ((truncateSamples maxS (discoverImages files)).filter
            (fun q => (A q).length = (B q).length)).map
          (fun q => absDiffRow (A q) (B q)) := by
  have hrows := runComparison_dict_rows keys A B files maxS C
  rw [runLoop_diffs] at hrows
  refine ⟨?_, hrows⟩
  intro row hrow
  rw [hrows] at hrow
  rcases List.mem_map.mp hrow with ⟨q, hq, hrq⟩
  have hlen : (A q).length = (B q).length := by
    simpa using (List.mem_filter.mp hq).2
  rw [← hrq, absDiffRow, List.length_zipWith, ← hlen, hA q]
  exact min_self C

/-- Witness for C5: one matching sample, one mismatched sample, `C = 1`. -/
theorem c5_witness :
    (∀ p : String, (((fun _ : String => [(0 : ℚ)]) p : List ℚ)).length = 1) ∧
    ((∀ row ∈ (runComparison (TorchObject.dict []) (fun _ => [(0 : ℚ)])
        (fun q => if q = "b.png" then ([] : List ℚ) else [0])
        ["a.png", "b.png"] none 1).rows, row.length = 1)
    ∧ (runComparison (TorchObject.dict []) (fun _ => [(0 : ℚ)])
        (fun q => if q = "b.png" then ([] : List ℚ) else [0])
        ["a.png", "b.png"] none 1).rows =
        ((truncateSamples none (discoverImages ["a.png", "b.png"])).filter
            (fun q => ((fun _ => [(0 : ℚ)]) q).length =
              ((fun q => if q = "b.png" then ([] : List ℚ) else [0]) q).length)).map
          (fun q => absDiffRow ((fun _ => [(0 : ℚ)]) q)
            ((fun q => if q = "b.png" then ([] : List ℚ) else [0]) q))) :=
  ⟨fun _ => rfl,
   c5_row_length_invariant [] (fun _ => [(0 : ℚ)])
     (fun q => if q = "b.png" then ([] : List ℚ) else [0])
     ["a.png", "b.png"] none 1 (fun _ => rfl)⟩

/-- C6: if the two backends produce identical output vectors on every
selected sample, the reported overall mean absolute difference and overall
max absolute difference are both exactly 0. -/
theorem c6_identical_outputs_zero_stats (keys : List String)
    (A B : String → List ℚ) (files : List String) (maxS : Option Int)
    (C : ℕ) (s : Summary)
    (hid : ∀ p ∈ truncateSamples maxS (discoverImages files), A p = B p)
    (hrep : (runComparison (.dict keys) A B files maxS C).result =
      RunResult.report s) :
    s.overallMean = 0 ∧ s.overallMax = 0 := by
  have hs := report_summary_eq keys A B files maxS C s hrep
  have hzero : ∀ row ∈
      (runLoop A B (truncateSamples maxS (discoverImages files))).diffs,
      ∀ x ∈ row, x = (0 : ℚ) := by
    rw [runLoop_diffs]
    intro row hrow
    rcases List.mem_map.mp hrow with ⟨q, hq, hrq⟩
    intro x hx
    rw [← hrq] at hx
    rw [← hid q (List.mem_of_mem_filter hq), absDiffRow_self] at hx
    rcases List.mem_map.mp hx with ⟨_, _, hx0⟩
    exact hx0.symm
  rw [hs]
  constructor
  · show matrixMean _ = 0
    rw [matrixMean, matrixSum]
    rw [List.sum_eq_zero, zero_div]
    intro x hx
    rcases List.mem_map.mp hx with ⟨row, hrow, hrx⟩
    rw [← hrx]
    exact List.sum_eq_zero (hzero row hrow)
  · show matrixMax _ = 0
    rw [matrixMax]
    apply listMax_of_forall_eq_zero
    intro x hx
    rcases List.mem_map.mp hx with ⟨row, hrow, hrx⟩
    rw [← hrx]
    exact listMax_of_forall_eq_zero row (hzero row hrow)

/-- Witness for C6: one sample on which both backends return `[0]`. -/
theorem c6_witness :
    (∀ p ∈ truncateSamples none (discoverImages ["a.png"]),
      (fun _ : String => [(0 : ℚ)]) p = (fun _ : String => [(0 : ℚ)]) p) ∧
    ((runComparison (TorchObject.dict []) (fun _ => [(0 : ℚ)])
        (fun _ => [(0 : ℚ)]) ["a.png"] none 14).result =
      RunResult.report ⟨1, 14, 0, 0, [0], [0]⟩) ∧
    ((⟨1, 14, 0, 0, [0], [0]⟩ : Summary).overallMean = 0 ∧
      (⟨1, 14, 0, 0, [0], [0]⟩ : Summary).overallMax = 0) := by
  have hd : discoverImages ["a.png"] = ["a.png"] := by decide
  have hrep : (runComparison (TorchObject.dict []) (fun _ => [(0 : ℚ)])
      (fun _ => [(0 : ℚ)]) ["a.png"] none 14).result =
      RunResult.report ⟨1, 14, 0, 0, [0], [0]⟩ := by
    rw [runComparison_dict_eq [] (fun _ => [(0 : ℚ)]) (fun _ => [(0 : ℚ)])
      ["a.png"] none 14 (by rw [hd]; decide)]
    rw [hd]
    norm_num [truncateSamples, runLoop, absDiffRow, matrixMean, matrixSum,
      matrixCount, matrixMax, listMax, perClassMean, perClassMax, columnVals]
  exact ⟨fun p _ => rfl, hrep,
    c6_identical_outputs_zero_stats [] (fun _ => [(0 : ℚ)])
      (fun _ => [(0 : ℚ)]) ["a.png"] none 14 ⟨1, 14, 0, 0, [0], [0]⟩
      (fun p _ => rfl) hrep⟩

/-- C10: the "Number of samples" of the printed summary is the number of
images selected after truncation — it equals the number of images opened
and counts samples skipped for shape mismatch — while the overall
statistics are computed over the collected (valid) rows only. -/
theorem c10_sample_count_includes_skipped (keys : List String)
    (A B : String → List ℚ) (files : List String) (maxS : Option Int)
    (C : ℕ) (s : Summary)
    (hrep : (runComparison (.dict keys) A B files maxS C).result =
      RunResult.report s) :
    s.numSamples = (truncateSamples maxS (discoverImages files)).length
    ∧ s.numSamples =
        (runComparison (.dict keys) A B files maxS C).opened.length
    ∧ s.overallMean =
        matrixMean (runComparison (.dict keys) A B files maxS C).rows
    ∧ s.overallMax =
        matrixMax (runComparison (.dict keys) A B files maxS C).rows := by
  have hne : discoverImages files ≠ [] := by
    intro h
    rw [runComparison_dict_of_discover_nil keys A B files maxS C h] at hrep
    cases hrep
  have hs := report_summary_eq keys A B files maxS C s hrep
  rw [hs, runComparison_dict_rows keys A B files maxS C,
    runComparison_dict_opened keys A B files maxS C hne]
  exact ⟨rfl, rfl, rfl, rfl⟩

/-- Witness for C10: two selected samples, one skipped for mismatch, so the
reported sample count is 2 while only one row is aggregated. -/
theorem c10_witness :
    ((runComparison (TorchObject.dict []) (fun _ => [(0 : ℚ)])
        (fun q => if q = "b.png" then ([] : List ℚ) else [0])
        ["a.png", "b.png"] none 14).result =
      RunResult.report ⟨2, 14, 0, 0, [0], [0]⟩) ∧
    ((⟨2, 14, 0, 0, [0], [0]⟩ : Summary).numSamples =
        (truncateSamples none (discoverImages ["a.png", "b.png"])).length
    ∧ (⟨2, 14, 0, 0, [0], [0]⟩ : Summary).numSamples =
        (runComparison (TorchObject.dict []) (fun _ => [(0 : ℚ)])
          (fun q => if q = "b.png" then ([] : List ℚ) else [0])
          ["a.png", "b.png"] none 14).opened.length
    ∧ (⟨2, 14, 0, 0, [0], [0]⟩ : Summary).overallMean =
        matrixMean (runComparison (TorchObject.dict []) (fun _ => [(0 : ℚ)])
          (fun q => if q = "b.png" then ([] : List ℚ) else [0])
          ["a.png", "b.png"] none 14).rows
    ∧ (⟨2, 14, 0, 0, [0], [0]⟩ : Summary).overallMax =
        matrixMax (runComparison (TorchObject.dict []) (fun _ => [(0 : ℚ)])
          (fun q => if q = "b.png" then ([] : List ℚ) else [0])
          ["a.png", "b.png"] none 14).rows) := by
  have hd : discoverImages ["a.png", "b.png"] = ["a.png", "b.png"] := by decide
  have hrep : (runComparison (TorchObject.dict []) (fun _ => [(0 : ℚ)])
      (fun q => if q = "b.png" then ([] : List ℚ) else [0])
      ["a.png", "b.png"] none 14).result =
      RunResult.report ⟨2, 14, 0, 0, [0], [0]⟩ := by
    rw [runComparison_dict_eq [] (fun _ => [(0 : ℚ)])
      (fun q => if q = "b.png" then ([] : List ℚ) else [0])
      ["a.png", "b.png"] none 14 (by rw [hd]; decide)]
    rw [hd]
    have hab : ("a.png" : String) ≠ "b.png" := by decide
    norm_num [truncateSamples, runLoop, absDiffRow, hab, matrixMean, matrixSum,
      matrixCount, matrixMax, listMax, perClassMean, perClassMax, columnVals]
  exact ⟨hrep,
    c10_sample_count_includes_skipped [] (fun _ => [(0 : ℚ)])
      (fun q => if q = "b.png" then ([] : List ℚ) else [0])
      ["a.png", "b.png"] none 14 ⟨2, 14, 0, 0, [0], [0]⟩ hrep⟩

end MayoEval
